import Mathlib

/-!
# Verification of the angle-search core of `equation4tensor.py`

This file embeds, over the exact reals, the two ratio evaluators
(`your_function`, `another_function`) and the grid search (`find_angles`)
of `equation4tensor.py`, and settles the specification claims about them.

Modelling conventions:
* Python floats are modelled by `ℝ`; `math.sin`/`math.cos` by `Real.sin`/`Real.cos`.
* Python's `ZeroDivisionError` (raised when the shared denominator is zero) is
  modelled by `Option`: an evaluator returns `none` exactly when its denominator
  is `0`, and the search returns `Except.error ()` when an evaluation at some
  visited grid point raises.
* `find_angles` returning a pair is `Except.ok (some p)`; the Python `return None`
  on grid exhaustion is `Except.ok none`.
* The IEEE special values (NaN, ±∞) that claim C6 is about do not exist in `ℝ`;
  a dedicated extension `FVal` of the target/tolerance inputs models them, with
  the comparison semantics Python inherits from IEEE 754.
-/

open scoped Classical

noncomputable section

namespace Equation4Tensor

/-- The expression `D` shared by both evaluators: the quantity that the Python
locals `denominator` square in `your_function` (lines 47–51) and
`another_function` (lines 76–80):
`cos²θ·(r1·cos²χ + r2·sin²χ) + (r1·sin²χ + r2·cos²χ) + sin²θ`. -/
def Dexpr (theta chi r1 r2 : ℝ) : ℝ :=
  Real.cos theta ^ 2 * (r1 * Real.cos chi ^ 2 + r2 * Real.sin chi ^ 2) +
    (r1 * Real.sin chi ^ 2 + r2 * Real.cos chi ^ 2) + Real.sin theta ^ 2

/-- The Python local `numerator` of `your_function` (lines 41–44):
`4 * (sin²θ * (r1·cos²χ + r2·sin²χ) + cos²θ)²`. -/
def numerator1 (theta chi r1 r2 : ℝ) : ℝ :=
  4 * (Real.sin theta ^ 2 * (r1 * Real.cos chi ^ 2 + r2 * Real.sin chi ^ 2) +
    Real.cos theta ^ 2) ^ 2

/-- `your_function(theta, chi, r1, r2)` (f1): `numerator / denominator` with
`denominator = Dexpr²`.  Python raises `ZeroDivisionError` when the denominator
is zero; this is modelled by `none`. -/
def your_function (theta chi r1 r2 : ℝ) : Option ℝ :=
  if Dexpr theta chi r1 r2 ^ 2 = 0 then none
  else some (numerator1 theta chi r1 r2 / Dexpr theta chi r1 r2 ^ 2)

/-- The Python local `numerator` of `another_function` (lines 70–73):
`2 * (sin²θ·cos²θ·(r1·cos²χ + r2·sin²χ − 1)² + sin²θ·sin²χ·cos²χ·(r1 − r2)²)`. -/
def numerator2 (theta chi r1 r2 : ℝ) : ℝ :=
  2 * (Real.sin theta ^ 2 * Real.cos theta ^ 2 *
      (r1 * Real.cos chi ^ 2 + r2 * Real.sin chi ^ 2 - 1) ^ 2 +
    Real.sin theta ^ 2 * Real.sin chi ^ 2 * Real.cos chi ^ 2 * (r1 - r2) ^ 2)

/-- `another_function(theta, chi, r1, r2)` (f2): same denominator as
`your_function`; `none` models the `ZeroDivisionError` at denominator `0`. -/
def another_function (theta chi r1 r2 : ℝ) : Option ℝ :=
  if Dexpr theta chi r1 r2 ^ 2 = 0 then none
  else some (numerator2 theta chi r1 r2 / Dexpr theta chi r1 r2 ^ 2)

/-- The radian value of integer step `i`: the Python
`theta_value = i / 360 * math.pi` (line 102) and
`chi_value = j / 360 * math.pi` (line 103). -/
def stepRad (i : ℕ) : ℝ := (i : ℝ) / 360 * Real.pi

/-- The list of integer steps both loops of `find_angles` iterate over:
`range(0, 721, 1)` (lines 100–101). -/
def angleSteps : List ℕ := List.range 721

/-- The inner (`j`, chi) loop of `find_angles` (lines 101–112), for a fixed
outer step `i`, run on a given list of remaining `j` steps.  At each step it
evaluates both functions at `(stepRad i, stepRad j)`; a zero denominator
propagates as `Except.error ()` (Python's uncaught `ZeroDivisionError`); a
joint strict tolerance match returns `(i/2, j/2)` (degrees) immediately. -/
def chiLoop (r1 r2 target1 target2 tolerance : ℝ) (i : ℕ) :
    List ℕ → Except Unit (Option (ℝ × ℝ))
  | [] => Except.ok none
  | j :: js =>
    match your_function (stepRad i) (stepRad j) r1 r2,
        another_function (stepRad i) (stepRad j) r1 r2 with
    | some func1, some func2 =>
      if |func1 - target1| < tolerance ∧ |func2 - target2| < tolerance then
        Except.ok (some ((i : ℝ) / 2, (j : ℝ) / 2))
      else chiLoop r1 r2 target1 target2 tolerance i js
    | _, _ => Except.error ()

/-- The outer (`i`, theta) loop of `find_angles` (line 100), run on a given
list of remaining `i` steps: each row runs the full inner loop over
`angleSteps`; a row that finds a match or raises ends the search, a row that
exhausts its inner loop continues with the next `i`. -/
def thetaLoop (r1 r2 target1 target2 tolerance : ℝ) :
    List ℕ → Except Unit (Option (ℝ × ℝ))
  | [] => Except.ok none
  | i :: is =>
    match chiLoop r1 r2 target1 target2 tolerance i angleSteps with
    | Except.ok none => thetaLoop r1 r2 target1 target2 tolerance is
    | r => r

/-- `find_angles(r1, r2, target1, target2, tolerance)` (lines 85–114):
the nested scan over the 721×721 grid.  `Except.ok (some (θ, χ))` is the Python
`return i/2, j/2` (degrees), `Except.ok none` the final `return None`, and
`Except.error ()` an uncaught `ZeroDivisionError` from an evaluation. -/
def find_angles (r1 r2 target1 target2 tolerance : ℝ) :
    Except Unit (Option (ℝ × ℝ)) :=
  thetaLoop r1 r2 target1 target2 tolerance angleSteps

/-- Grid point `(i, j)` satisfies the joint strict tolerance condition of
line 110: both evaluators succeed there and both residuals are `< tolerance`. -/
def matchesAt (r1 r2 target1 target2 tolerance : ℝ) (i j : ℕ) : Prop :=
  ∃ v1 v2, your_function (stepRad i) (stepRad j) r1 r2 = some v1 ∧
    another_function (stepRad i) (stepRad j) r1 r2 = some v2 ∧
    |v1 - target1| < tolerance ∧ |v2 - target2| < tolerance

/-- The shared denominator is nonzero at grid point `(i, j)`: evaluating there
does not raise `ZeroDivisionError`. -/
def okAt (r1 r2 : ℝ) (i j : ℕ) : Prop :=
  Dexpr (stepRad i) (stepRad j) r1 r2 ≠ 0

/-- The spec's shared denominator, written from the spec text:
"D = cos²θ·(r1·cos²χ + r2·sin²χ) + (r1·sin²χ + r2·cos²χ) + sin²θ". -/
def D_spec (theta chi r1 r2 : ℝ) : ℝ :=
  Real.cos theta ^ 2 * (r1 * Real.cos chi ^ 2 + r2 * Real.sin chi ^ 2) +
    (r1 * Real.sin chi ^ 2 + r2 * Real.cos chi ^ 2) + Real.sin theta ^ 2

/-- The spec's f1, written from the spec text:
"f1 = 4·(sin²θ·(r1·cos²χ + r2·sin²χ) + cos²θ)² / D²". -/
def f1_spec (theta chi r1 r2 : ℝ) : ℝ :=
  4 * (Real.sin theta ^ 2 * (r1 * Real.cos chi ^ 2 + r2 * Real.sin chi ^ 2) +
    Real.cos theta ^ 2) ^ 2 / D_spec theta chi r1 r2 ^ 2

/-- The spec's f2, written from the spec text:
"f2 = 2·(sin²θ·cos²θ·(r1·cos²χ + r2·sin²χ − 1)² + sin²θ·sin²χ·cos²χ·(r1 − r2)²) / D²". -/
def f2_spec (theta chi r1 r2 : ℝ) : ℝ :=
  2 * (Real.sin theta ^ 2 * Real.cos theta ^ 2 *
      (r1 * Real.cos chi ^ 2 + r2 * Real.sin chi ^ 2 - 1) ^ 2 +
    Real.sin theta ^ 2 * Real.sin chi ^ 2 * Real.cos chi ^ 2 * (r1 - r2) ^ 2) /
    D_spec theta chi r1 r2 ^ 2

/-! ## Basic evaluator lemmas -/

/-- With a nonzero shared denominator, `your_function` returns its quotient. -/
lemma your_function_of_ne {theta chi r1 r2 : ℝ} (h : Dexpr theta chi r1 r2 ≠ 0) :
    your_function theta chi r1 r2 =
      some (numerator1 theta chi r1 r2 / Dexpr theta chi r1 r2 ^ 2) := by
  rw [your_function, if_neg (pow_ne_zero 2 h)]

/-- With a nonzero shared denominator, `another_function` returns its quotient. -/
lemma another_function_of_ne {theta chi r1 r2 : ℝ} (h : Dexpr theta chi r1 r2 ≠ 0) :
    another_function theta chi r1 r2 =
      some (numerator2 theta chi r1 r2 / Dexpr theta chi r1 r2 ^ 2) := by
  rw [another_function, if_neg (pow_ne_zero 2 h)]

/-- With a zero shared denominator, `your_function` raises (returns `none`). -/
lemma your_function_of_eq {theta chi r1 r2 : ℝ} (h : Dexpr theta chi r1 r2 = 0) :
    your_function theta chi r1 r2 = none := by
  rw [your_function, if_pos (by rw [h]; ring)]

/-- With a zero shared denominator, `another_function` raises (returns `none`). -/
lemma another_function_of_eq {theta chi r1 r2 : ℝ} (h : Dexpr theta chi r1 r2 = 0) :
    another_function theta chi r1 r2 = none := by
  rw [another_function, if_pos (by rw [h]; ring)]

/-- A successful `your_function` evaluation forces a nonzero denominator. -/
lemma ne_of_your_function_some {theta chi r1 r2 : ℝ} {v : ℝ}
    (h : your_function theta chi r1 r2 = some v) : Dexpr theta chi r1 r2 ≠ 0 := by
  intro h0
  rw [your_function_of_eq h0] at h
  exact Option.noConfusion h

/-- The value of a successful `your_function` evaluation is nonnegative:
its numerator is `4` times a square, its denominator a square. -/
lemma your_function_nonneg {theta chi r1 r2 v : ℝ}
    (h : your_function theta chi r1 r2 = some v) : 0 ≤ v := by
  have hD := ne_of_your_function_some h
  rw [your_function_of_ne hD] at h
  have hv := Option.some.inj h
  subst hv
  refine div_nonneg ?_ (sq_nonneg _)
  have := sq_nonneg (Real.sin theta ^ 2 *
    (r1 * Real.cos chi ^ 2 + r2 * Real.sin chi ^ 2) + Real.cos theta ^ 2)
  rw [numerator1]
  nlinarith [this]

/-- The value of a successful `another_function` evaluation is nonnegative:
its numerator is twice a sum of products of squares, its denominator a square. -/
lemma another_function_nonneg {theta chi r1 r2 v : ℝ}
    (h : another_function theta chi r1 r2 = some v) : 0 ≤ v := by
  have hD : Dexpr theta chi r1 r2 ≠ 0 := by
    intro h0
    rw [another_function_of_eq h0] at h
    exact Option.noConfusion h
  rw [another_function_of_ne hD] at h
  have hv := Option.some.inj h
  subst hv
  refine div_nonneg ?_ (sq_nonneg _)
  rw [numerator2]
  positivity

/-! ## Concrete evaluations used by witnesses and counterexamples -/

/-- With `r1 = r2 = 1` the shared denominator is constantly `2`. -/
lemma Dexpr_one_one (theta chi : ℝ) : Dexpr theta chi 1 1 = 2 := by
  have h1 : (1 : ℝ) * Real.cos chi ^ 2 + 1 * Real.sin chi ^ 2 = 1 := by
    rw [one_mul, one_mul, Real.cos_sq_add_sin_sq]
  have h2 : (1 : ℝ) * Real.sin chi ^ 2 + 1 * Real.cos chi ^ 2 = 1 := by
    rw [one_mul, one_mul, Real.sin_sq_add_cos_sq]
  rw [Dexpr, h1, h2, mul_one]
  linear_combination Real.cos_sq_add_sin_sq theta

/-- With `r1 = r2 = 1`, `your_function` is constantly `1`. -/
lemma your_function_one_one (theta chi : ℝ) : your_function theta chi 1 1 = some 1 := by
  have hD : Dexpr theta chi 1 1 ≠ 0 := by rw [Dexpr_one_one]; norm_num
  have h1 : (1 : ℝ) * Real.cos chi ^ 2 + 1 * Real.sin chi ^ 2 = 1 := by
    rw [one_mul, one_mul, Real.cos_sq_add_sin_sq]
  have hn : numerator1 theta chi 1 1 = 4 := by
    rw [numerator1, h1, mul_one, Real.sin_sq_add_cos_sq]
    norm_num
  rw [your_function_of_ne hD, Dexpr_one_one, hn]
  norm_num

/-- With `r1 = r2 = 1`, `another_function` is constantly `0`. -/
lemma another_function_one_one (theta chi : ℝ) :
    another_function theta chi 1 1 = some 0 := by
  have hD : Dexpr theta chi 1 1 ≠ 0 := by rw [Dexpr_one_one]; norm_num
  have h1 : (1 : ℝ) * Real.cos chi ^ 2 + 1 * Real.sin chi ^ 2 = 1 := by
    rw [one_mul, one_mul, Real.cos_sq_add_sin_sq]
  have hn : numerator2 theta chi 1 1 = 0 := by
    rw [numerator2, h1]
    norm_num
  rw [another_function_of_ne hD, Dexpr_one_one, hn]
  norm_num

/-- Step `0` is the angle `0` in radians. -/
lemma stepRad_zero : stepRad 0 = 0 := by
  rw [stepRad]
  norm_num

/-- Step `180` is the angle `π/2` in radians. -/
lemma stepRad_180 : stepRad 180 = Real.pi / 2 := by
  rw [stepRad]
  norm_num
  ring

/-- With `r1 = 1, r2 = -1` the shared denominator vanishes at grid point
`(0, 0)` — the degenerate input that makes Python's very first evaluation
raise `ZeroDivisionError`. -/
lemma Dexpr_degenerate : Dexpr (stepRad 0) (stepRad 0) 1 (-1) = 0 := by
  rw [stepRad_zero, Dexpr]
  simp [Real.sin_zero, Real.cos_zero]

/-! ## Loop lemmas -/

/-- Membership in the step list is exactly the bound `i ≤ 720`. -/
lemma mem_angleSteps {i : ℕ} : i ∈ angleSteps ↔ i ≤ 720 := by
  rw [angleSteps, List.mem_range]
  omega

/-- Splitting the step list at an arbitrary step `k`. -/
lemma angleSteps_decomp (k : ℕ) (h : k ≤ 720) :
    angleSteps = List.range k ++ k :: List.range' (k + 1) (720 - k) := by
  have h1 : (721 : ℕ) = 720 - k + 1 + k := by omega
  rw [angleSteps, List.range_eq_range', h1, ← List.range'_append_1 0 k (720 - k + 1)]
  rw [Nat.zero_add, List.range'_succ, ← List.range_eq_range']

/-- A matching head step makes the inner loop return `(i/2, j/2)` at once. -/
lemma chiLoop_cons_hit {r1 r2 t1 t2 tol : ℝ} {i j : ℕ} {js : List ℕ}
    (h : matchesAt r1 r2 t1 t2 tol i j) :
    chiLoop r1 r2 t1 t2 tol i (j :: js) =
      Except.ok (some ((i : ℝ) / 2, (j : ℝ) / 2)) := by
  obtain ⟨v1, v2, h1, h2, hb1, hb2⟩ := h
  simp only [chiLoop, h1, h2]
  rw [if_pos ⟨hb1, hb2⟩]

/-- A zero denominator at the head step makes the inner loop raise. -/
lemma chiLoop_cons_err {r1 r2 t1 t2 tol : ℝ} {i j : ℕ} {js : List ℕ}
    (hD : Dexpr (stepRad i) (stepRad j) r1 r2 = 0) :
    chiLoop r1 r2 t1 t2 tol i (j :: js) = Except.error () := by
  simp only [chiLoop, your_function_of_eq hD, another_function_of_eq hD]

/-- A defined, non-matching head step is skipped by the inner loop. -/
lemma chiLoop_cons_skip {r1 r2 t1 t2 tol : ℝ} {i j : ℕ} {js : List ℕ}
    (hD : Dexpr (stepRad i) (stepRad j) r1 r2 ≠ 0)
    (hm : ¬ matchesAt r1 r2 t1 t2 tol i j) :
    chiLoop r1 r2 t1 t2 tol i (j :: js) = chiLoop r1 r2 t1 t2 tol i js := by
  simp only [chiLoop, your_function_of_ne hD, another_function_of_ne hD]
  rw [if_neg]
  intro hc
  exact hm ⟨_, _, your_function_of_ne hD, another_function_of_ne hD, hc.1, hc.2⟩

/-- The inner loop skips over any prefix of defined, non-matching steps. -/
lemma chiLoop_append {r1 r2 t1 t2 tol : ℝ} {i : ℕ} {js1 : List ℕ} (js2 : List ℕ)
    (h : ∀ j ∈ js1, okAt r1 r2 i j ∧ ¬ matchesAt r1 r2 t1 t2 tol i j) :
    chiLoop r1 r2 t1 t2 tol i (js1 ++ js2) = chiLoop r1 r2 t1 t2 tol i js2 := by
  induction js1 with
  | nil => rfl
  | cons j js ih =>
    rw [List.cons_append,
      chiLoop_cons_skip (h j (List.mem_cons_self j js)).1 (h j (List.mem_cons_self j js)).2]
    exact ih fun x hx => h x (List.mem_cons_of_mem j hx)

/-- The inner loop exhausts a list of defined, non-matching steps. -/
lemma chiLoop_eq_none {r1 r2 t1 t2 tol : ℝ} {i : ℕ} {js : List ℕ}
    (h : ∀ j ∈ js, okAt r1 r2 i j ∧ ¬ matchesAt r1 r2 t1 t2 tol i j) :
    chiLoop r1 r2 t1 t2 tol i js = Except.ok none := by
  have h2 := chiLoop_append [] h
  rwa [List.append_nil] at h2

/-- An exhausted inner loop found no matching step. -/
lemma not_matchesAt_of_chiLoop_none {r1 r2 t1 t2 tol : ℝ} {i : ℕ} {js : List ℕ}
    (h : chiLoop r1 r2 t1 t2 tol i js = Except.ok none) :
    ∀ j ∈ js, ¬ matchesAt r1 r2 t1 t2 tol i j := by
  induction js with
  | nil => intro j hj; exact absurd hj (List.not_mem_nil j)
  | cons j js ih =>
    by_cases hD : Dexpr (stepRad i) (stepRad j) r1 r2 = 0
    · rw [chiLoop_cons_err hD] at h
      exact absurd h (by simp)
    · by_cases hm : matchesAt r1 r2 t1 t2 tol i j
      · rw [chiLoop_cons_hit hm] at h
        exact absurd h (by simp)
      · rw [chiLoop_cons_skip hD hm] at h
        intro x hx
        rcases List.mem_cons.mp hx with rfl | hx'
        · exact hm
        · exact ih h x hx'

/-- A row whose inner loop finds a match ends the outer loop with that match. -/
lemma thetaLoop_cons_hit {r1 r2 t1 t2 tol : ℝ} {i : ℕ} {is : List ℕ} {p : ℝ × ℝ}
    (h : chiLoop r1 r2 t1 t2 tol i angleSteps = Except.ok (some p)) :
    thetaLoop r1 r2 t1 t2 tol (i :: is) = Except.ok (some p) := by
  rw [thetaLoop, h]

/-- A row whose inner loop raises ends the outer loop with that error. -/
lemma thetaLoop_cons_err {r1 r2 t1 t2 tol : ℝ} {i : ℕ} {is : List ℕ}
    (h : chiLoop r1 r2 t1 t2 tol i angleSteps = Except.error ()) :
    thetaLoop r1 r2 t1 t2 tol (i :: is) = Except.error () := by
  rw [thetaLoop, h]

/-- A row whose inner loop exhausts is skipped by the outer loop. -/
lemma thetaLoop_cons_none {r1 r2 t1 t2 tol : ℝ} {i : ℕ} {is : List ℕ}
    (h : chiLoop r1 r2 t1 t2 tol i angleSteps = Except.ok none) :
    thetaLoop r1 r2 t1 t2 tol (i :: is) = thetaLoop r1 r2 t1 t2 tol is := by
  rw [thetaLoop, h]

/-- The outer loop skips over any prefix of exhausting rows. -/
lemma thetaLoop_append {r1 r2 t1 t2 tol : ℝ} {is1 : List ℕ} (is2 : List ℕ)
    (h : ∀ i ∈ is1, chiLoop r1 r2 t1 t2 tol i angleSteps = Except.ok none) :
    thetaLoop r1 r2 t1 t2 tol (is1 ++ is2) = thetaLoop r1 r2 t1 t2 tol is2 := by
  induction is1 with
  | nil => rfl
  | cons i is ih =>
    rw [List.cons_append, thetaLoop_cons_none (h i (List.mem_cons_self i is))]
    exact ih fun x hx => h x (List.mem_cons_of_mem i hx)

/-- The outer loop exhausts when every row is defined and non-matching. -/
lemma thetaLoop_eq_none {r1 r2 t1 t2 tol : ℝ} {is : List ℕ}
    (h : ∀ i ∈ is, ∀ j ∈ angleSteps,
      okAt r1 r2 i j ∧ ¬ matchesAt r1 r2 t1 t2 tol i j) :
    thetaLoop r1 r2 t1 t2 tol is = Except.ok none := by
  have h2 := thetaLoop_append [] fun i hi => chiLoop_eq_none (h i hi)
  rwa [List.append_nil] at h2

/-- An exhausted outer loop found no matching grid point. -/
lemma not_matchesAt_of_thetaLoop_none {r1 r2 t1 t2 tol : ℝ} {is : List ℕ}
    (h : thetaLoop r1 r2 t1 t2 tol is = Except.ok none) :
    ∀ i ∈ is, ∀ j ∈ angleSteps, ¬ matchesAt r1 r2 t1 t2 tol i j := by
  induction is with
  | nil => intro i hi; exact absurd hi (List.not_mem_nil i)
  | cons i is ih =>
    cases hrow : chiLoop r1 r2 t1 t2 tol i angleSteps with
    | error e =>
      cases e
      rw [thetaLoop_cons_err hrow] at h
      exact absurd h (by simp)
    | ok o =>
      cases o with
      | none =>
        rw [thetaLoop_cons_none hrow] at h
        intro x hx
        rcases List.mem_cons.mp hx with rfl | hx'
        · exact not_matchesAt_of_chiLoop_none hrow
        · exact ih h x hx'
      | some p =>
        rw [thetaLoop_cons_hit hrow] at h
        exact absurd h (by simp)

/-! ## Tolerance monotonicity -/

/-- Growing the tolerance can only turn inner-loop exhaustion into exhaustion
or a hit, and preserves hits (possibly at a different step). -/
lemma chiLoop_mono {r1 r2 t1 t2 T1 T2 : ℝ} (hT : T1 ≤ T2) (i : ℕ) (js : List ℕ) :
    (chiLoop r1 r2 t1 t2 T1 i js = Except.ok none →
      chiLoop r1 r2 t1 t2 T2 i js = Except.ok none ∨
        ∃ q, chiLoop r1 r2 t1 t2 T2 i js = Except.ok (some q)) ∧
    ∀ p, chiLoop r1 r2 t1 t2 T1 i js = Except.ok (some p) →
      ∃ q, chiLoop r1 r2 t1 t2 T2 i js = Except.ok (some q) := by
  induction js with
  | nil =>
    constructor
    · intro _
      exact Or.inl rfl
    · intro p hp
      simp [chiLoop] at hp
  | cons j js ih =>
    by_cases hD : Dexpr (stepRad i) (stepRad j) r1 r2 = 0
    · constructor
      · intro h
        rw [chiLoop_cons_err hD] at h
        exact absurd h (by simp)
      · intro p h
        rw [chiLoop_cons_err hD] at h
        exact absurd h (by simp)
    · by_cases hm2 : matchesAt r1 r2 t1 t2 T2 i j
      · constructor
        · intro _
          exact Or.inr ⟨_, chiLoop_cons_hit hm2⟩
        · intro p _
          exact ⟨_, chiLoop_cons_hit hm2⟩
      · have hm1 : ¬ matchesAt r1 r2 t1 t2 T1 i j := by
          intro hm
          obtain ⟨v1, v2, h1, h2, b1, b2⟩ := hm
          exact hm2 ⟨v1, v2, h1, h2, lt_of_lt_of_le b1 hT, lt_of_lt_of_le b2 hT⟩
        constructor
        · intro h
          rw [chiLoop_cons_skip hD hm1] at h
          rw [chiLoop_cons_skip hD hm2]
          exact ih.1 h
        · intro p h
          rw [chiLoop_cons_skip hD hm1] at h
          rw [chiLoop_cons_skip hD hm2]
          exact ih.2 p h

/-- Growing the tolerance preserves outer-loop success. -/
lemma thetaLoop_mono {r1 r2 t1 t2 T1 T2 : ℝ} (hT : T1 ≤ T2) (is : List ℕ) :
    ∀ p, thetaLoop r1 r2 t1 t2 T1 is = Except.ok (some p) →
      ∃ q, thetaLoop r1 r2 t1 t2 T2 is = Except.ok (some q) := by
  induction is with
  | nil =>
    intro p hp
    simp [thetaLoop] at hp
  | cons i is ih =>
    intro p hp
    cases hrow : chiLoop r1 r2 t1 t2 T1 i angleSteps with
    | error e =>
      cases e
      rw [thetaLoop_cons_err hrow] at hp
      exact absurd hp (by simp)
    | ok o =>
      cases o with
      | none =>
        rw [thetaLoop_cons_none hrow] at hp
        rcases (chiLoop_mono hT i angleSteps).1 hrow with hrow2 | ⟨q, hq⟩
        · rw [thetaLoop_cons_none hrow2]
          exact ih p hp
        · exact ⟨q, thetaLoop_cons_hit hq⟩
      | some p' =>
        rw [thetaLoop_cons_hit hrow] at hp
        obtain ⟨q, hq⟩ := (chiLoop_mono hT i angleSteps).2 p' hrow
        exact ⟨q, thetaLoop_cons_hit hq⟩

/-! ## Concrete runs of the search -/

/-- The step list starts with step `0`. -/
lemma angleSteps_cons : angleSteps = 0 :: List.range' 1 720 := by
  have h := angleSteps_decomp 0 (by norm_num)
  simpa using h

/-- With `r1 = r2 = 1` the very first grid point `(0, 0)` matches as soon as
the targets are within tolerance of the constant values `f1 = 1`, `f2 = 0`,
and the search returns `(0, 0)` degrees. -/
lemma find_angles_one_one_hit {t1 t2 tol : ℝ}
    (h1 : |1 - t1| < tol) (h2 : |0 - t2| < tol) :
    find_angles 1 1 t1 t2 tol = Except.ok (some (0, 0)) := by
  have hm : matchesAt 1 1 t1 t2 tol 0 0 :=
    ⟨1, 0, your_function_one_one _ _, another_function_one_one _ _, h1, h2⟩
  have hrow : chiLoop 1 1 t1 t2 tol 0 angleSteps = Except.ok (some (0, 0)) := by
    rw [angleSteps_cons]
    have h : chiLoop 1 1 t1 t2 tol 0 (0 :: List.range' 1 720) =
        Except.ok (some (((0 : ℕ) : ℝ) / 2, ((0 : ℕ) : ℝ) / 2)) :=
      chiLoop_cons_hit hm
    simpa using h
  rw [find_angles, angleSteps_cons]
  exact thetaLoop_cons_hit hrow

/-- With `r1 = 1, r2 = -1` the search dies at its very first evaluation:
the shared denominator vanishes at grid point `(0, 0)`, whatever the targets
and tolerance are. -/
lemma find_angles_degenerate (t1 t2 tol : ℝ) :
    find_angles 1 (-1) t1 t2 tol = Except.error () := by
  have hrow : chiLoop 1 (-1) t1 t2 tol 0 angleSteps = Except.error () := by
    rw [angleSteps_cons]
    exact chiLoop_cons_err Dexpr_degenerate
  rw [find_angles, angleSteps_cons]
  exact thetaLoop_cons_err hrow

/-- With `r1 = 1, r2 = -1` the denominator at grid point `(180, 180)`,
i.e. `θ = χ = 90°`, is `2`. -/
lemma Dexpr_halfpi : Dexpr (Real.pi / 2) (Real.pi / 2) 1 (-1) = 2 := by
  rw [Dexpr]
  rw [Real.sin_pi_div_two, Real.cos_pi_div_two]
  norm_num

/-- With `r1 = 1, r2 = -1`, `your_function` evaluates to `1` at grid point
`(180, 180)`. -/
lemma your_function_at_180 :
    your_function (stepRad 180) (stepRad 180) 1 (-1) = some 1 := by
  rw [stepRad_180]
  have hD : Dexpr (Real.pi / 2) (Real.pi / 2) 1 (-1) ≠ 0 := by
    rw [Dexpr_halfpi]; norm_num
  have hn : numerator1 (Real.pi / 2) (Real.pi / 2) 1 (-1) = 4 := by
    rw [numerator1, Real.sin_pi_div_two, Real.cos_pi_div_two]
    norm_num
  rw [your_function_of_ne hD, Dexpr_halfpi, hn]
  norm_num

/-- With `r1 = 1, r2 = -1`, `another_function` evaluates to `0` at grid point
`(180, 180)`. -/
lemma another_function_at_180 :
    another_function (stepRad 180) (stepRad 180) 1 (-1) = some 0 := by
  rw [stepRad_180]
  have hD : Dexpr (Real.pi / 2) (Real.pi / 2) 1 (-1) ≠ 0 := by
    rw [Dexpr_halfpi]; norm_num
  have hn : numerator2 (Real.pi / 2) (Real.pi / 2) 1 (-1) = 0 := by
    rw [numerator2, Real.sin_pi_div_two, Real.cos_pi_div_two]
    norm_num
  rw [another_function_of_ne hD, Dexpr_halfpi, hn]
  norm_num

/-! ## π-periodicity helpers -/

/-- `sin²` is π-periodic. -/
lemma sin_sq_add_pi (x : ℝ) : Real.sin (x + Real.pi) ^ 2 = Real.sin x ^ 2 := by
  rw [Real.sin_add, Real.sin_pi, Real.cos_pi]
  ring

/-- `cos²` is π-periodic. -/
lemma cos_sq_add_pi (x : ℝ) : Real.cos (x + Real.pi) ^ 2 = Real.cos x ^ 2 := by
  rw [Real.cos_add, Real.sin_pi, Real.cos_pi]
  ring

/-- The shared denominator is π-periodic in `theta`. -/
lemma Dexpr_theta_pi (theta chi r1 r2 : ℝ) :
    Dexpr (theta + Real.pi) chi r1 r2 = Dexpr theta chi r1 r2 := by
  rw [Dexpr, Dexpr, sin_sq_add_pi, cos_sq_add_pi]

/-- The shared denominator is π-periodic in `chi`. -/
lemma Dexpr_chi_pi (theta chi r1 r2 : ℝ) :
    Dexpr theta (chi + Real.pi) r1 r2 = Dexpr theta chi r1 r2 := by
  rw [Dexpr, Dexpr, sin_sq_add_pi, cos_sq_add_pi]

/-- The f1 numerator is π-periodic in `theta`. -/
lemma numerator1_theta_pi (theta chi r1 r2 : ℝ) :
    numerator1 (theta + Real.pi) chi r1 r2 = numerator1 theta chi r1 r2 := by
  rw [numerator1, numerator1, sin_sq_add_pi, cos_sq_add_pi]

/-- The f1 numerator is π-periodic in `chi`. -/
lemma numerator1_chi_pi (theta chi r1 r2 : ℝ) :
    numerator1 theta (chi + Real.pi) r1 r2 = numerator1 theta chi r1 r2 := by
  rw [numerator1, numerator1, sin_sq_add_pi, cos_sq_add_pi]

/-- The f2 numerator is π-periodic in `theta`. -/
lemma numerator2_theta_pi (theta chi r1 r2 : ℝ) :
    numerator2 (theta + Real.pi) chi r1 r2 = numerator2 theta chi r1 r2 := by
  rw [numerator2, numerator2, sin_sq_add_pi, cos_sq_add_pi]

/-- The f2 numerator is π-periodic in `chi`. -/
lemma numerator2_chi_pi (theta chi r1 r2 : ℝ) :
    numerator2 theta (chi + Real.pi) r1 r2 = numerator2 theta chi r1 r2 := by
  rw [numerator2, numerator2, sin_sq_add_pi, cos_sq_add_pi]

/-! ## IEEE special values for the target/tolerance inputs (claim C6)

Claim C6 is about supplying non-finite floats (NaN, ±∞) as `target1`,
`target2` or `tolerance`.  Those values do not exist in `ℝ`, so the search is
re-embedded with its target and tolerance inputs drawn from `FVal`, an
extension of `ℝ` by the three IEEE special values, and the two comparisons of
line 110 (`abs(value - target) < tolerance`) given their IEEE semantics:
subtraction and `abs` propagate NaN, and every comparison involving NaN is
false.  The grid angles and `r1`, `r2` stay real, as in the claims. -/

/-- A Python float input: a finite real, `inf`, `-inf`, or `nan`. -/
inductive FVal where
  | fin (x : ℝ)
  | posInf
  | negInf
  | nan

/-- IEEE subtraction of an `FVal` from a finite real, as in `func1 =
your_function(...) - target1` (line 106). -/
def fvSub (x : ℝ) : FVal → FVal
  | FVal.fin t => FVal.fin (x - t)
  | FVal.posInf => FVal.negInf
  | FVal.negInf => FVal.posInf
  | FVal.nan => FVal.nan

/-- IEEE absolute value, as in `abs(func1)` (line 110). -/
def fvAbs : FVal → FVal
  | FVal.fin x => FVal.fin |x|
  | FVal.posInf => FVal.posInf
  | FVal.negInf => FVal.posInf
  | FVal.nan => FVal.nan

/-- IEEE strict `<`: any comparison with NaN is false, `-inf` is below and
`inf` above every finite value. -/
def fvLt : FVal → FVal → Prop
  | FVal.nan, _ => False
  | _, FVal.nan => False
  | _, FVal.negInf => False
  | FVal.fin x, FVal.fin y => x < y
  | FVal.fin _, FVal.posInf => True
  | FVal.posInf, _ => False
  | FVal.negInf, _ => True

/-- Nothing is IEEE-below NaN. -/
lemma not_fvLt_nan (a : FVal) : ¬ fvLt a FVal.nan := by
  cases a <;> simp [fvLt]

/-- The inner loop of `find_angles` with `FVal` targets and tolerance:
identical to `chiLoop` except that the two residual comparisons of line 110
use the IEEE operations. -/
def chiLoopF (r1 r2 : ℝ) (target1 target2 tolerance : FVal) (i : ℕ) :
    List ℕ → Except Unit (Option (ℝ × ℝ))
  | [] => Except.ok none
  | j :: js =>
    match your_function (stepRad i) (stepRad j) r1 r2,
        another_function (stepRad i) (stepRad j) r1 r2 with
    | some func1, some func2 =>
      if fvLt (fvAbs (fvSub func1 target1)) tolerance ∧
          fvLt (fvAbs (fvSub func2 target2)) tolerance then
        Except.ok (some ((i : ℝ) / 2, (j : ℝ) / 2))
      else chiLoopF r1 r2 target1 target2 tolerance i js
    | _, _ => Except.error ()

/-- The outer loop of `find_angles` with `FVal` targets and tolerance. -/
def thetaLoopF (r1 r2 : ℝ) (target1 target2 tolerance : FVal) :
    List ℕ → Except Unit (Option (ℝ × ℝ))
  | [] => Except.ok none
  | i :: is =>
    match chiLoopF r1 r2 target1 target2 tolerance i angleSteps with
    | Except.ok none => thetaLoopF r1 r2 target1 target2 tolerance is
    | r => r

/-- `find_angles` with `FVal` targets and tolerance. -/
def find_anglesF (r1 r2 : ℝ) (target1 target2 tolerance : FVal) :
    Except Unit (Option (ℝ × ℝ)) :=
  thetaLoopF r1 r2 target1 target2 tolerance angleSteps

/-- With a NaN tolerance no comparison succeeds, so the inner loop exhausts
any list of defined steps. -/
lemma chiLoopF_nan_tol {r1 r2 : ℝ} {t1 t2 : FVal} {i : ℕ} {js : List ℕ}
    (h : ∀ j ∈ js, okAt r1 r2 i j) :
    chiLoopF r1 r2 t1 t2 FVal.nan i js = Except.ok none := by
  induction js with
  | nil => rfl
  | cons j js ih =>
    have hD := h j (List.mem_cons_self j js)
    simp only [chiLoopF, your_function_of_ne hD, another_function_of_ne hD]
    rw [if_neg fun hc => not_fvLt_nan _ hc.1]
    exact ih fun x hx => h x (List.mem_cons_of_mem j hx)

/-- With a NaN tolerance the outer loop exhausts any list of defined rows. -/
lemma thetaLoopF_nan_tol {r1 r2 : ℝ} {t1 t2 : FVal} {is : List ℕ}
    (h : ∀ i ∈ is, ∀ j ∈ angleSteps, okAt r1 r2 i j) :
    thetaLoopF r1 r2 t1 t2 FVal.nan is = Except.ok none := by
  induction is with
  | nil => rfl
  | cons i is ih =>
    rw [thetaLoopF, chiLoopF_nan_tol (h i (List.mem_cons_self i is))]
    exact ih fun x hx => h x (List.mem_cons_of_mem i hx)

/-- With `target1 = -1000` no grid point can match under any tolerance
`≤ 1000`, because f1 is nonnegative wherever it evaluates. -/
lemma no_match_neg1000 {r1 r2 t2 tol : ℝ} (htol : tol ≤ 1000) :
    ∀ i j : ℕ, ¬ matchesAt r1 r2 (-1000) t2 tol i j := by
  rintro i j ⟨v1, v2, h1, h2, b1, b2⟩
  have hv1 := your_function_nonneg h1
  rw [sub_neg_eq_add, abs_of_nonneg (by linarith)] at b1
  linarith

/-! ## The claims -/

/-- Claim C1 (amended): for every `r1, r2, target1, target2, tolerance`, if
grid point `(i0, j0)` (steps in `[0, 720]`) satisfies both strict residual
bounds jointly and every theta-major lexicographically earlier grid point is
non-matching *with a nonzero shared denominator*, then `find_angles` returns
the pair `(i0/2, j0/2)` in degrees and that point satisfies both bounds.
The nonzero-denominator proviso on the scanned prefix is the amendment: without
it the scan can raise `ZeroDivisionError` before reaching the match
(see the counterexample). -/
theorem claim_C1_thm (r1 r2 target1 target2 tolerance : ℝ) (i0 j0 : ℕ)
    (hi : i0 ≤ 720) (hj : j0 ≤ 720)
    (hm : matchesAt r1 r2 target1 target2 tolerance i0 j0)
    (hpre : ∀ i j, i ≤ 720 → j ≤ 720 → (i < i0 ∨ (i = i0 ∧ j < j0)) →
      okAt r1 r2 i j ∧ ¬ matchesAt r1 r2 target1 target2 tolerance i j) :
    find_angles r1 r2 target1 target2 tolerance =
      Except.ok (some ((i0 : ℝ) / 2, (j0 : ℝ) / 2)) ∧
      matchesAt r1 r2 target1 target2 tolerance i0 j0 := by
  refine ⟨?_, hm⟩
  have hrows : ∀ i ∈ List.range i0,
      chiLoop r1 r2 target1 target2 tolerance i angleSteps = Except.ok none := by
    intro i hi'
    have hii : i < i0 := List.mem_range.mp hi'
    exact chiLoop_eq_none fun j hj' =>
      hpre i j (by omega) (mem_angleSteps.mp hj') (Or.inl hii)
  have hrow : chiLoop r1 r2 target1 target2 tolerance i0 angleSteps =
      Except.ok (some ((i0 : ℝ) / 2, (j0 : ℝ) / 2)) := by
    have hpref : ∀ j ∈ List.range j0,
        okAt r1 r2 i0 j ∧ ¬ matchesAt r1 r2 target1 target2 tolerance i0 j := by
      intro j hj'
      have hjj : j < j0 := List.mem_range.mp hj'
      exact hpre i0 j hi (by omega) (Or.inr ⟨rfl, hjj⟩)
    rw [angleSteps_decomp j0 hj, chiLoop_append _ hpref]
    exact chiLoop_cons_hit hm
  rw [find_angles, angleSteps_decomp i0 hi, thetaLoop_append _ hrows]
  exact thetaLoop_cons_hit hrow

/-- Claim C2: wherever the shared denominator `D` is nonzero, `your_function`
returns exactly the spec's f1 and `another_function` exactly the spec's f2,
with the identical shared `D`. -/
theorem claim_C2_thm (theta chi r1 r2 : ℝ) (h : D_spec theta chi r1 r2 ≠ 0) :
    your_function theta chi r1 r2 = some (f1_spec theta chi r1 r2) ∧
    another_function theta chi r1 r2 = some (f2_spec theta chi r1 r2) ∧
    D_spec theta chi r1 r2 = Dexpr theta chi r1 r2 := by
  have hD : Dexpr theta chi r1 r2 ≠ 0 := h
  refine ⟨?_, ?_, rfl⟩
  · rw [your_function_of_ne hD]
    rfl
  · rw [another_function_of_ne hD]
    rfl

/-- Claim C3 (amended): each axis of the search domain has 721 (not 361) grid
points — integer steps `i ∈ [0, 720]`, step `i` meaning `i/2` degrees, i.e.
`i/360·π = (i/2)·(π/180)` radians — for a 721×721 = 519841-point grid covering
exactly `[0°, 360°]`. -/
theorem claim_C3_thm :
    angleSteps.length = 721 ∧
    angleSteps.length * angleSteps.length = 519841 ∧
    (∀ i, i ∈ angleSteps ↔ i ≤ 720) ∧
    (∀ i, stepRad i = (i : ℝ) / 2 * (Real.pi / 180)) ∧
    ∀ i ∈ angleSteps, 0 ≤ (i : ℝ) / 2 ∧ (i : ℝ) / 2 ≤ 360 := by
  refine ⟨?_, ?_, fun i => mem_angleSteps, fun i => ?_, fun i hi => ?_⟩
  · rw [angleSteps, List.length_range]
  · rw [angleSteps, List.length_range]
  · rw [stepRad]
    ring
  · have h7 : i ≤ 720 := mem_angleSteps.mp hi
    have hc : (i : ℝ) ≤ 720 := by exact_mod_cast h7
    constructor
    · positivity
    · linarith

/-- Claim C4 (amended): at a grid point where the shared denominator is zero,
`find_angles` does not skip the point — the division raises and the error
propagates out of the scan (`Except.error ()`), provided every earlier grid
point in scan order was defined and non-matching.  Such a point is never
returned as a match. -/
theorem claim_C4_thm (r1 r2 target1 target2 tolerance : ℝ) (i0 j0 : ℕ)
    (hi : i0 ≤ 720) (hj : j0 ≤ 720)
    (hD : Dexpr (stepRad i0) (stepRad j0) r1 r2 = 0)
    (hpre : ∀ i j, i ≤ 720 → j ≤ 720 → (i < i0 ∨ (i = i0 ∧ j < j0)) →
      okAt r1 r2 i j ∧ ¬ matchesAt r1 r2 target1 target2 tolerance i j) :
    find_angles r1 r2 target1 target2 tolerance = Except.error () := by
  have hrows : ∀ i ∈ List.range i0,
      chiLoop r1 r2 target1 target2 tolerance i angleSteps = Except.ok none := by
    intro i hi'
    have hii : i < i0 := List.mem_range.mp hi'
    exact chiLoop_eq_none fun j hj' =>
      hpre i j (by omega) (mem_angleSteps.mp hj') (Or.inl hii)
  have hrow : chiLoop r1 r2 target1 target2 tolerance i0 angleSteps =
      Except.error () := by
    have hpref : ∀ j ∈ List.range j0,
        okAt r1 r2 i0 j ∧ ¬ matchesAt r1 r2 target1 target2 tolerance i0 j := by
      intro j hj'
      have hjj : j < j0 := List.mem_range.mp hj'
      exact hpre i0 j hi (by omega) (Or.inr ⟨rfl, hjj⟩)
    rw [angleSteps_decomp j0 hj, chiLoop_append _ hpref]
    exact chiLoop_cons_err hD
  rw [find_angles, angleSteps_decomp i0 hi, thetaLoop_append _ hrows]
  exact thetaLoop_cons_err hrow

/-- Claim C5 (amended): provided the shared denominator is nonzero at every
grid point, `find_angles` returns the explicit no-solution indicator `None`
(`Except.ok none`, distinct from every angle pair) exactly when no grid point
satisfies the joint strict tolerance condition.  Without that proviso only the
"returns `None` implies no match" direction survives: a degenerate grid point
makes the scan raise instead of returning `None`. -/
theorem claim_C5_thm (r1 r2 target1 target2 tolerance : ℝ)
    (hD : ∀ i j, i ≤ 720 → j ≤ 720 → okAt r1 r2 i j) :
    find_angles r1 r2 target1 target2 tolerance = Except.ok none ↔
      ∀ i j, i ≤ 720 → j ≤ 720 →
        ¬ matchesAt r1 r2 target1 target2 tolerance i j := by
  constructor
  · intro h i j hi hj
    exact not_matchesAt_of_thetaLoop_none h i (mem_angleSteps.mpr hi) j
      (mem_angleSteps.mpr hj)
  · intro h
    exact thetaLoop_eq_none fun i hi j hj =>
      ⟨hD i j (mem_angleSteps.mp hi) (mem_angleSteps.mp hj),
        h i j (mem_angleSteps.mp hi) (mem_angleSteps.mp hj)⟩

/-- Claim C6 (amended): the engine performs no validation of non-finite
inputs.  A NaN tolerance flows straight into the scan, where every IEEE
comparison against it is false, so the engine scans the full grid and returns
the ordinary no-solution `None` (provided no denominator degenerates) — it
never rejects the input or reports the invalid field. -/
theorem claim_C6_thm (r1 r2 : ℝ) (target1 target2 : FVal)
    (hD : ∀ i j, i ≤ 720 → j ≤ 720 → okAt r1 r2 i j) :
    find_anglesF r1 r2 target1 target2 FVal.nan = Except.ok none :=
  thetaLoopF_nan_tol fun i hi j hj =>
    hD i j (mem_angleSteps.mp hi) (mem_angleSteps.mp hj)

/-- Claim C7: tolerance monotonicity — if the search succeeds (returns some
angle pair) at tolerance `T1`, it also succeeds at any larger tolerance `T2`,
though possibly with a different pair. -/
theorem claim_C7_thm (r1 r2 target1 target2 T1 T2 : ℝ) (p : ℝ × ℝ)
    (hT : T1 < T2)
    (h : find_angles r1 r2 target1 target2 T1 = Except.ok (some p)) :
    ∃ q, find_angles r1 r2 target1 target2 T2 = Except.ok (some q) :=
  thetaLoop_mono (le_of_lt hT) angleSteps p h

/-- Claim C8: both evaluators are π-periodic in each angle argument (they
depend only on squared trigonometric terms); the equalities hold as full
evaluation outcomes, degenerate points included. -/
theorem claim_C8_thm (theta chi r1 r2 : ℝ) :
    your_function (theta + Real.pi) chi r1 r2 = your_function theta chi r1 r2 ∧
    your_function theta (chi + Real.pi) r1 r2 = your_function theta chi r1 r2 ∧
    another_function (theta + Real.pi) chi r1 r2 =
      another_function theta chi r1 r2 ∧
    another_function theta (chi + Real.pi) r1 r2 =
      another_function theta chi r1 r2 := by
  refine ⟨?_, ?_, ?_, ?_⟩
  · rw [your_function, your_function, Dexpr_theta_pi, numerator1_theta_pi]
  · rw [your_function, your_function, Dexpr_chi_pi, numerator1_chi_pi]
  · rw [another_function, another_function, Dexpr_theta_pi, numerator2_theta_pi]
  · rw [another_function, another_function, Dexpr_chi_pi, numerator2_chi_pi]

/-- Claim C9 (amended): for `target1 = -1000` the search returns the
no-solution result, provided the tolerance is at most `1000` (f1 is
nonnegative, so no residual can get below `1000`) and the shared denominator
is nonzero at every grid point (otherwise the scan raises instead).  Without
the tolerance bound the claim fails: a huge tolerance matches the first grid
point (see the counterexample). -/
theorem claim_C9_thm (r1 r2 target2 tolerance : ℝ) (htol : tolerance ≤ 1000)
    (hD : ∀ i j, i ≤ 720 → j ≤ 720 → okAt r1 r2 i j) :
    find_angles r1 r2 (-1000) target2 tolerance = Except.ok none :=
  thetaLoop_eq_none fun i hi j hj =>
    ⟨hD i j (mem_angleSteps.mp hi) (mem_angleSteps.mp hj),
      no_match_neg1000 htol i j⟩

/-- Claim C10: wherever the shared denominator is nonzero, both evaluators
return nonnegative values — each numerator is a positive constant times a sum
of squares and each denominator is `D²`. -/
theorem claim_C10_thm (theta chi r1 r2 : ℝ) (h : Dexpr theta chi r1 r2 ≠ 0) :
    ∃ v1 v2, your_function theta chi r1 r2 = some v1 ∧
      another_function theta chi r1 r2 = some v2 ∧ 0 ≤ v1 ∧ 0 ≤ v2 :=
  ⟨_, _, your_function_of_ne h, another_function_of_ne h,
    your_function_nonneg (your_function_of_ne h),
    another_function_nonneg (another_function_of_ne h)⟩

/-! ## Witnesses and counterexamples -/

/-- Witness for C1: with `r1 = r2 = 1`, targets `(1, 0)` and tolerance `1/20`,
grid point `(0, 0)` matches with an empty scanned prefix, and the search
returns `(0, 0)` degrees. -/
theorem claim_C1_witness :
    find_angles 1 1 1 0 (1 / 20) =
      Except.ok (some (((0 : ℕ) : ℝ) / 2, ((0 : ℕ) : ℝ) / 2)) ∧
      matchesAt 1 1 1 0 (1 / 20) 0 0 := by
  have hm : matchesAt 1 1 1 0 (1 / 20) 0 0 :=
    ⟨1, 0, your_function_one_one _ _, another_function_one_one _ _,
      by norm_num, by norm_num⟩
  exact claim_C1_thm 1 1 1 0 (1 / 20) 0 0 (by norm_num) (by norm_num) hm
    fun i j _ _ hlex => absurd hlex (by omega)

/-- Counterexample to C1 as stated: with `r1 = 1, r2 = -1`, targets `(1, 0)`
and tolerance `1/20`, grid point `(180, 180)` satisfies both strict residual
bounds, yet `find_angles` returns no pair — it raises `ZeroDivisionError`
(modelled `Except.error ()`) at grid point `(0, 0)`, where the shared
denominator vanishes, before reaching any match. -/
theorem claim_C1_cex :
    matchesAt 1 (-1) 1 0 (1 / 20) 180 180 ∧
      find_angles 1 (-1) 1 0 (1 / 20) = Except.error () := by
  constructor
  · exact ⟨1, 0, your_function_at_180, another_function_at_180,
      by norm_num, by norm_num⟩
  · exact find_angles_degenerate 1 0 (1 / 20)

/-- Witness for C2 at `θ = χ = 0`, `r1 = r2 = 1`. -/
theorem claim_C2_witness :
    your_function 0 0 1 1 = some (f1_spec 0 0 1 1) ∧
    another_function 0 0 1 1 = some (f2_spec 0 0 1 1) ∧
    D_spec 0 0 1 1 = Dexpr 0 0 1 1 := by
  refine claim_C2_thm 0 0 1 1 ?_
  show Dexpr 0 0 1 1 ≠ 0
  rw [Dexpr_one_one]
  norm_num

/-- Counterexample to C3 as stated: each axis has 721 grid points, not 361. -/
theorem claim_C3_cex : angleSteps.length ≠ 361 := by
  rw [angleSteps, List.length_range]
  norm_num

/-- Witness for C3 at step `720` (the angle `360°`). -/
theorem claim_C3_witness :
    angleSteps.length = 721 ∧
      (0 ≤ ((720 : ℕ) : ℝ) / 2 ∧ ((720 : ℕ) : ℝ) / 2 ≤ 360) :=
  ⟨claim_C3_thm.1, claim_C3_thm.2.2.2.2 720 (mem_angleSteps.mpr (by norm_num))⟩

/-- Witness for C4: with `r1 = 1, r2 = -1` the denominator vanishes at the
very first grid point and the search raises immediately. -/
theorem claim_C4_witness : find_angles 1 (-1) 0 0 (1 / 20) = Except.error () :=
  claim_C4_thm 1 (-1) 0 0 (1 / 20) 0 0 (by norm_num) (by norm_num)
    Dexpr_degenerate fun i j _ _ hlex => absurd hlex (by omega)

/-- Counterexample to C4 as stated: at `r1 = 1, r2 = -1` the denominator is
zero at grid point `(0, 0)`, and instead of skipping that point and
continuing, `find_angles` propagates the division fault. -/
theorem claim_C4_cex :
    Dexpr (stepRad 0) (stepRad 0) 1 (-1) = 0 ∧
      find_angles 1 (-1) 5 5 (1 / 20) = Except.error () :=
  ⟨Dexpr_degenerate, find_angles_degenerate 5 5 (1 / 20)⟩

/-- Witness for C5: with `r1 = r2 = 1` (denominator constantly `2`) and an
unreachable `target1 = 5`, the search exhausts the grid and returns `None`. -/
theorem claim_C5_witness : find_angles 1 1 5 0 (1 / 20) = Except.ok none := by
  refine (claim_C5_thm 1 1 5 0 (1 / 20) ?_).mpr ?_
  · intro i j _ _
    rw [okAt, Dexpr_one_one]
    norm_num
  · rintro i j _ _ ⟨v1, v2, h1, h2, b1, b2⟩
    rw [your_function_one_one] at h1
    obtain rfl : v1 = 1 := (Option.some.inj h1).symm
    rw [abs_sub_lt_iff] at b1
    linarith [b1.2]

/-- Counterexample to C5 as stated: with `r1 = 1, r2 = -1` and
`target1 = -1000` no grid point satisfies the tolerance condition, yet the
scan does not return the no-solution indicator `None` — it raises at grid
point `(0, 0)`. -/
theorem claim_C5_cex :
    (∀ i j : ℕ, ¬ matchesAt 1 (-1) (-1000) 0 (1 / 20) i j) ∧
      find_angles 1 (-1) (-1000) 0 (1 / 20) ≠ Except.ok none ∧
      find_angles 1 (-1) (-1000) 0 (1 / 20) = Except.error () := by
  refine ⟨no_match_neg1000 (by norm_num), ?_, find_angles_degenerate _ _ _⟩
  rw [find_angles_degenerate]
  simp

/-- Witness for C6 (amended): a NaN tolerance with `r1 = r2 = 1` makes the
engine scan the whole grid and return `None` — no rejection happens. -/
theorem claim_C6_witness :
    find_anglesF 1 1 (FVal.fin 1) (FVal.fin 0) FVal.nan = Except.ok none :=
  claim_C6_thm 1 1 (FVal.fin 1) (FVal.fin 0) fun i j _ _ => by
    rw [okAt, Dexpr_one_one]
    norm_num

set_option maxRecDepth 4000 in
/-- Counterexample to C6 as stated: an infinite tolerance is not rejected
before the scan — the engine evaluates grid point `(0, 0)`, finds both IEEE
comparisons true, and returns that angle pair. -/
theorem claim_C6_cex :
    find_anglesF 1 1 (FVal.fin 1) (FVal.fin 0) FVal.posInf =
      Except.ok (some (0, 0)) := by
  have hc : fvLt (fvAbs (fvSub 1 (FVal.fin 1))) FVal.posInf ∧
      fvLt (fvAbs (fvSub 0 (FVal.fin 0))) FVal.posInf := by
    constructor <;> simp [fvSub, fvAbs, fvLt]
  have hrow : chiLoopF 1 1 (FVal.fin 1) (FVal.fin 0) FVal.posInf 0 angleSteps =
      Except.ok (some (0, 0)) := by
    rw [angleSteps_cons]
    simp only [chiLoopF, your_function_one_one, another_function_one_one]
    rw [if_pos hc]
    norm_num
  rw [find_anglesF, angleSteps_cons, thetaLoopF, hrow]

/-- Witness for C7: the `T1 = 1/20` search at `r1 = r2 = 1`, targets `(1, 0)`
succeeds, so the `T2 = 1/10` search also succeeds. -/
theorem claim_C7_witness :
    ∃ q, find_angles 1 1 1 0 (1 / 10) = Except.ok (some q) :=
  claim_C7_thm 1 1 1 0 (1 / 20) (1 / 10) (0, 0) (by norm_num)
    (find_angles_one_one_hit (by norm_num) (by norm_num))

/-- Witness for C9 (amended): `r1 = r2 = 1`, `target1 = -1000`, default
tolerance `1/20` — the grid is exhausted and `None` returned. -/
theorem claim_C9_witness :
    find_angles 1 1 (-1000) 0 (1 / 20) = Except.ok none :=
  claim_C9_thm 1 1 0 (1 / 20) (by norm_num) fun i j _ _ => by
    rw [okAt, Dexpr_one_one]
    norm_num

/-- Counterexample to C9 as stated: quantifying over *every* tolerance is
wrong — with tolerance `2000` the engine returns grid point `(0, 0)` even for
`target1 = -1000`. -/
theorem claim_C9_cex :
    find_angles 1 1 (-1000) 0 2000 = Except.ok (some (0, 0)) := by
  refine find_angles_one_one_hit ?_ ?_
  · have h : |(1 : ℝ) - -1000| = 1001 := by
      rw [show (1 : ℝ) - -1000 = 1001 by norm_num]
      exact abs_of_nonneg (by norm_num)
    rw [h]
    norm_num
  · norm_num

/-- Witness for C10 at `θ = χ = 0`, `r1 = r2 = 1`. -/
theorem claim_C10_witness :
    ∃ v1 v2, your_function 0 0 1 1 = some v1 ∧
      another_function 0 0 1 1 = some v2 ∧ 0 ≤ v1 ∧ 0 ≤ v2 :=
  claim_C10_thm 0 0 1 1 (by rw [Dexpr_one_one]; norm_num)

end Equation4Tensor
